import Mathlib

/-!
Verification of the IOC extraction and threat-scoring core of the open-soc
repository.

The definitions below are a shallow embedding of the pure Python helpers in
`agent_threat_intel_specialist/threat_hunting_specialist.py` and
`agent_ioc_specialist/virustotal_analyzer.py`:

* `_extract_iocs_from_text` — regex-based IOC extraction (IPv4, domain, URL,
  MD5/SHA1/SHA256 patterns), a domain false-positive filter, and a
  strip/dedup pass.  The Python `re.findall` behaviour of each concrete
  pattern is embedded by a specialised matcher; the generic scan loop
  (leftmost match, advance one character on failure, continue after a match)
  is `re_findall`.
* `ThreatFoxClient._detect_ioc_type` and the VirusTotal `_detect_ioc_type`.
* `_assess_threat_level`, the `_generate_offline_hunting_report` scoring
  bands, and `_generate_recommendations`.
* the offline path of `ThreatFoxClient.search_ioc` and the per-IOC loop in
  `hunt_threats`.

Texts are modelled as `List Char` (the sources only process ASCII incident
text); Python float percentages are modelled by exact rationals `ℚ`.
-/

/-- Python regex `\w` (word character) for ASCII input: letters, digits, `_`. -/
def isWordChar (c : Char) : Bool := c.isAlphanum || c = '_'

/-- Python `str` whitespace (`\s` / `str.strip`) for ASCII input. -/
def isPySpace (c : Char) : Bool :=
  c = ' ' || c = '\t' || c = '\n' || c = '\r' || c = '\x0b' || c = '\x0c'

/-- A hexadecimal digit, as in the character classes `[a-fA-F0-9]`
and the literal `'0123456789abcdefABCDEF'` used by the sources. -/
def isHexChar (c : Char) : Bool :=
  c.isDigit || ('a' ≤ c && c ≤ 'f') || ('A' ≤ c && c ≤ 'F')

/-- Python `str.strip()`: drop leading and trailing whitespace. -/
def pyStrip (l : List Char) : List Char :=
  ((l.dropWhile isPySpace).reverse.dropWhile isPySpace).reverse

/-- Boolean prefix test, used to embed Python `str.startswith`. -/
def startsWithL (pre : String) (l : List Char) : Bool := decide (pre.toList <+: l)

/-- The regex word boundary `\b` holds before the match position: the
previous character (if any) is not a word character.  All patterns below
that open with `\b` continue with a word character, so this one-sided check
is the full `\b` condition at the start of a match. -/
def noWordBefore (prev : Option Char) : Bool :=
  match prev with
  | none => true
  | some c => !isWordChar c

/-- The regex word boundary `\b` holds after a match ending in a word
character: the rest of the input is empty or starts with a non-word
character. -/
def boundaryAfter (rest : List Char) : Bool :=
  match rest with
  | [] => true
  | c :: _ => !isWordChar c

/-!
### The IPv4 pattern `\b(?:[0-9]{1,3}\.){3}[0-9]{1,3}\b`

`[0-9]{1,3}` followed by a literal `.` can only succeed by consuming a whole
maximal digit run of length 1–3 (a shorter greedy backtrack is followed by a
digit, never by `.`), and the final `[0-9]{1,3}\b` likewise requires the
maximal digit run at that point to have length 1–3 with a word boundary
after it.
-/

/-- One `[0-9]{1,3}\.` group of the IPv4 pattern. -/
def grabOctetDot (s : List Char) : Option (List Char × List Char) :=
  let p := s.span Char.isDigit
  if 1 ≤ p.1.length && p.1.length ≤ 3 then
    match p.2 with
    | '.' :: r => some (p.1 ++ ['.'], r)
    | _ => none
  else none

/-- The final `[0-9]{1,3}\b` of the IPv4 pattern. -/
def grabOctetEnd (s : List Char) : Option (List Char × List Char) :=
  let p := s.span Char.isDigit
  if 1 ≤ p.1.length && p.1.length ≤ 3 && boundaryAfter p.2 then
    some (p.1, p.2)
  else none

/-- Match of the IPv4 pattern at the current position (`prev` is the
character before the position). Returns the matched text and the rest. -/
def matchIPFrom (prev : Option Char) (s : List Char) : Option (List Char × List Char) :=
  if noWordBefore prev then do
    let (m1, r1) ← grabOctetDot s
    let (m2, r2) ← grabOctetDot r1
    let (m3, r3) ← grabOctetDot r2
    let (m4, r4) ← grabOctetEnd r3
    some (m1 ++ m2 ++ m3 ++ m4, r4)
  else none

/-!
### The hash patterns `\b[a-fA-F0-9]{n}\b` for n = 32, 40, 64
-/

/-- Match of a `\b[a-fA-F0-9]{n}\b` hash pattern at the current position. -/
def matchHashFrom (n : Nat) (prev : Option Char) (s : List Char) :
    Option (List Char × List Char) :=
  if noWordBefore prev then
    let pre := s.take n
    if pre.length = n && pre.all isHexChar && boundaryAfter (s.drop n) then
      some (pre, s.drop n)
    else none
  else none

/-!
### The URL pattern

`https?://[^\s<>"\'{}<|\\^`[\]]+[^\s<>"\'{}<|\\^`[\].,;!?]`

After the scheme, the greedy body class consumes a maximal run `R`; the
final character class then backtracks to the longest prefix of `R` whose
last character is not one of `. , ; ! ?`, of length at least 2.
-/

/-- Characters excluded by the URL body class
`[^\s<>"\'{}<|\\^`[\]]` (whitespace handled separately). -/
def urlExcludedChars : List Char :=
  ['<', '>', '"', '\'', '\x7b', '\x7d', '|', '\\', '^', Char.ofNat 96, '[', ']']

/-- Membership in the URL body character class. -/
def urlBodyChar (c : Char) : Bool := !isPySpace c && !urlExcludedChars.contains c

/-- Trailing characters additionally excluded for the final URL character. -/
def urlTrailChars : List Char := ['.', ',', ';', '!', '?']

/-- Body of the URL pattern after the scheme: maximal body-class run with
trailing `. , ; ! ?` characters backtracked away; needs ≥ 2 characters. -/
def urlBodyMatch (scheme : List Char) (r : List Char) : Option (List Char × List Char) :=
  let p := r.span urlBodyChar
  let body := (p.1.reverse.dropWhile urlTrailChars.contains).reverse
  if 2 ≤ body.length then
    some (scheme ++ body, p.1.drop body.length ++ p.2)
  else none

/-- Match of the URL pattern at the current position (no `\b`, so `prev`
is ignored). -/
def matchURLFrom (_prev : Option Char) (s : List Char) : Option (List Char × List Char) :=
  match s with
  | 'h' :: 't' :: 't' :: 'p' :: 's' :: ':' :: '/' :: '/' :: r =>
    urlBodyMatch ['h', 't', 't', 'p', 's', ':', '/', '/'] r
  | 'h' :: 't' :: 't' :: 'p' :: ':' :: '/' :: '/' :: r =>
    urlBodyMatch ['h', 't', 't', 'p', ':', '/', '/'] r
  | _ => none

/-!
### The domain pattern

`\b(?:[a-zA-Z0-9](?:[a-zA-Z0-9\-]{0,61}[a-zA-Z0-9])?\.)+[a-zA-Z]{2,}\b`

A label group followed by a literal `.` can only succeed on the whole
maximal `[a-zA-Z0-9-]` run (length ≤ 63, starting and ending alphanumeric);
the `+` collects as many `label.` groups as possible and then backtracks
group by group until `[a-zA-Z]{2,}\b` matches.
-/

/-- Label characters `[a-zA-Z0-9-]`. -/
def isLabelChar (c : Char) : Bool := c.isAlphanum || c = '-'

/-- One `label.` group: whole maximal label run, 1–63 chars, alphanumeric at
both ends, followed by a literal dot. Returns the rest after the dot. -/
def labelDotStep (s : List Char) : Option (List Char) :=
  match s with
  | [] => none
  | c :: _ =>
    if c.isAlphanum then
      let p := s.span isLabelChar
      if p.1.length ≤ 63 && (match p.1.getLast? with
                             | some d => d.isAlphanum
                             | none => false) then
        match p.2 with
        | '.' :: r => some r
        | _ => none
      else none
    else none

/-- All positions reachable by 1, 2, … `label.` groups (rest after each
group), in order. -/
def labelChain (fuel : Nat) (s : List Char) : List (List Char) :=
  match fuel with
  | 0 => []
  | f + 1 =>
    match labelDotStep s with
    | some r => r :: labelChain f r
    | none => []

/-- The trailing `[a-zA-Z]{2,}\b`: maximal alphabetic run of length ≥ 2
followed by a word boundary. Returns the rest after the run. -/
def tldMatchAt (s : List Char) : Option (List Char) :=
  let p := s.span Char.isAlpha
  if 2 ≤ p.1.length && boundaryAfter p.2 then some p.2 else none

/-- Match of the domain pattern at the current position: greedy on the
number of `label.` groups, backtracking from the deepest. -/
def matchDomainFrom (prev : Option Char) (s : List Char) : Option (List Char × List Char) :=
  if noWordBefore prev then
    match (labelChain s.length s).reverse.findSome? tldMatchAt with
    | some rest => some (s.take (s.length - rest.length), rest)
    | none => none
  else none

/-- Python `re.findall` scan loop: try the matcher at each position, on a
match emit it and continue right after it, otherwise advance one character.
`prev` carries the character before the current position (for `\b`). -/
def findallAux (m : Option Char → List Char → Option (List Char × List Char)) :
    Nat → Option Char → List Char → List (List Char)
  | 0, _, _ => []
  | _ + 1, _, [] => []
  | f + 1, prev, c :: rest =>
    match m prev (c :: rest) with
    | some (mt, r) => mt :: findallAux m f mt.getLast? r
    | none => findallAux m f (some c) rest

/-- Embedding of `re.findall pattern text` for one of the matchers above. -/
def re_findall (m : Option Char → List Char → Option (List Char × List Char))
    (text : List Char) : List (List Char) :=
  findallAux m (text.length + 1) none text

/-!
### `_extract_iocs_from_text`
-/

/-- The domain false-positive filter from `_extract_iocs_from_text`:
`not d.endswith(('.com', '.org', '.net')) or 'malicious' in d.lower() or
'suspicious' in d.lower() or 'bad' in d.lower()`. -/
def domainFilterKeep (d : List Char) : Bool :=
  !(decide (".com".toList <:+ d) || decide (".org".toList <:+ d)
      || decide (".net".toList <:+ d))
    || decide ("malicious".toList <:+: d.map Char.toLower)
    || decide ("suspicious".toList <:+: d.map Char.toLower)
    || decide ("bad".toList <:+: d.map Char.toLower)

/-- The raw match list of `_extract_iocs_from_text` before the clean/dedup
loop: IPs, filtered domains, URLs, then MD5/SHA1/SHA256 matches, in the
source's order of `iocs.extend` calls. -/
def rawIOCs (text : List Char) : List (List Char) :=
  re_findall matchIPFrom text
    ++ (re_findall matchDomainFrom text).filter domainFilterKeep
    ++ re_findall matchURLFrom text
    ++ re_findall (matchHashFrom 32) text
    ++ re_findall (matchHashFrom 40) text
    ++ re_findall (matchHashFrom 64) text

/-- The clean/dedup loop of `_extract_iocs_from_text`: strip each match,
drop empties, keep the first occurrence of each value. -/
def cleanDedup (acc : List (List Char)) : List (List Char) → List (List Char)
  | [] => acc
  | x :: xs =>
    let x' := pyStrip x
    if x' ≠ [] ∧ x' ∉ acc then cleanDedup (acc ++ [x']) xs else cleanDedup acc xs

/-- Embedding of `_extract_iocs_from_text` (threat_hunting_specialist.py). -/
def _extract_iocs_from_text (text : List Char) : List (List Char) :=
  cleanDedup [] (rawIOCs text)

/-- String-level wrapper of `_extract_iocs_from_text`, for concrete runs. -/
def extract_iocs_str (text : String) : List String :=
  (_extract_iocs_from_text text.toList).map (fun l => String.mk l)

/-!
### IOC type detectors

Two distinct `_detect_ioc_type` functions exist in the sources; both are
embedded, with a prefix on the Lean name to disambiguate.
-/

/-- Python `str.split(sep)` on a single separator character. -/
def splitOnChar (sep : Char) : List Char → List (List Char)
  | [] => [[]]
  | c :: rest =>
    let r := splitOnChar sep rest
    if c = sep then [] :: r else (c :: r.headD []) :: r.tail

/-- Numeric value of a digit string (used for octet range checks). -/
def digitsVal (p : List Char) : Nat :=
  p.foldl (fun n c => n * 10 + (c.toNat - 48)) 0

/-- Success of Python `ipaddress.ip_address(s)` for a string `s` that
contains no `:` (as produced by `ioc_value.split(':')[0]`): such a string
can only parse as IPv4 — exactly four dot-separated octets, each a
non-empty ASCII digit string with no leading zero (except "0" itself) and
value ≤ 255. -/
def isPyIPv4 (l : List Char) : Bool :=
  let parts := splitOnChar '.' l
  parts.length = 4 && parts.all (fun p =>
    p ≠ [] && p.all Char.isDigit && (p.length = 1 || p.headD '0' ≠ '0')
      && digitsVal p ≤ 255)

/-- Embedding of `ThreatFoxClient._detect_ioc_type`
(threat_hunting_specialist.py): IP (on the part before the first `:`)
first, then `http://`/`https://` URLs, then dotted strings that do not
start with `http`/`ftp` as domains, then bare length 32/40/64 as hashes,
otherwise "unknown". -/
def threatfox_detect_ioc_type (ioc_value : List Char) : String :=
  if isPyIPv4 (ioc_value.takeWhile (fun c => c ≠ ':')) then
    if ioc_value.contains ':' then "ip:port" else "ip"
  else if startsWithL "http://" ioc_value || startsWithL "https://" ioc_value then
    "url"
  else if ioc_value.contains '.'
      && !(startsWithL "http" ioc_value || startsWithL "ftp" ioc_value) then
    "domain"
  else if ioc_value.length = 64 then "sha256"
  else if ioc_value.length = 32 then "md5"
  else if ioc_value.length = 40 then "sha1"
  else "unknown"

/-- One octet of the VirusTotal IP regex alternation
`25[0-5]|2[0-4][0-9]|[01]?[0-9][0-9]?`, which must consume a whole
dot-separated part (a partial greedy match is always followed by another
digit, never by `.` or the end anchor). -/
def vtValidOctet (p : List Char) : Bool :=
  match p with
  | [a] => a.isDigit
  | [a, b] => a.isDigit && b.isDigit
  | [a, b, c] =>
    (a = '2' && b = '5' && '0' ≤ c && c ≤ '5')
      || (a = '2' && '0' ≤ b && b ≤ '4' && c.isDigit)
      || ((a = '0' || a = '1') && b.isDigit && c.isDigit)
  | _ => false

/-- Embedding of `re.match` against the anchored VirusTotal IPv4 pattern
`^(?:(?:25[0-5]|2[0-4][0-9]|[01]?[0-9][0-9]?)\.){3}(?:...)$`. -/
def vtIPMatch (v : List Char) : Bool :=
  let parts := splitOnChar '.' v
  parts.length = 4 && parts.all vtValidOctet

/-- Embedding of the VirusTotal `_detect_ioc_type` (virustotal_analyzer.py):
strip, then 32/40/64 all-hex → "hash", then `http://`/`https://`/`ftp://`
→ "url", then the strict IPv4 regex → "ip", otherwise "domain". -/
def virustotal_detect_ioc_type (value : List Char) : String :=
  if ((pyStrip value).length = 32 || (pyStrip value).length = 40
        || (pyStrip value).length = 64)
      && (pyStrip value).all isHexChar then
    "hash"
  else if startsWithL "http://" (pyStrip value)
      || startsWithL "https://" (pyStrip value)
      || startsWithL "ftp://" (pyStrip value) then
    "url"
  else if vtIPMatch (pyStrip value) then "ip"
  else "domain"

/-!
### Threat scoring
-/

/-- Detection percentage `malicious / total * 100` of `_assess_threat_level`,
as an exact rational (the Python float only differs from the exact value at
denominators far beyond any engine count). -/
def detection_percentage (malicious total : Nat) : ℚ :=
  (malicious : ℚ) / (total : ℚ) * 100

/-- Embedding of `_assess_threat_level` (virustotal_analyzer.py). -/
def _assess_threat_level (malicious total : Nat) : String :=
  if total = 0 then "Unknown"
  else if 70 ≤ detection_percentage malicious total then "Critical"
  else if 30 ≤ detection_percentage malicious total then "High"
  else if 10 ≤ detection_percentage malicious total then "Medium"
  else if 0 < detection_percentage malicious total then "Low"
  else "Clean"

/-- One entry of the `ioc_analysis` list built by `hunt_threats`:
the IOC, its ThreatFox match count (dict key "matches"), and the non-match status recorded by
the corresponding branch (`none` for the match branch, which stores no
status key). -/
structure IOCAnalysis where
  ioc : List Char
  matchCount : Nat
  status : Option String
  deriving Repr, DecidableEq

/-- The `threat_score` of `_generate_offline_hunting_report`:
`malicious_iocs / total_iocs * 100` when `total_iocs > 0`, else `0`. -/
def threat_score (malicious_iocs total_iocs : Nat) : ℚ :=
  if 0 < total_iocs then (malicious_iocs : ℚ) / (total_iocs : ℚ) * 100 else 0

/-- The threat-level banding of `_generate_offline_hunting_report`. -/
def threat_level_from_score (s : ℚ) : String :=
  if 75 ≤ s then "CRITICAL"
  else if 50 ≤ s then "HIGH"
  else if 25 ≤ s then "MEDIUM"
  else "LOW"

/-- `malicious_iocs` of `_generate_offline_hunting_report`: the number of
entries whose match count is positive. -/
def report_malicious_iocs (l : List IOCAnalysis) : Nat :=
  l.countP (fun a => 0 < a.matchCount)

/-- The aggregate threat score computed by `_generate_offline_hunting_report`
over the `ioc_analysis` list. -/
def report_threat_score (l : List IOCAnalysis) : ℚ :=
  threat_score (report_malicious_iocs l) l.length

/-- The aggregate threat level computed by `_generate_offline_hunting_report`
over the `ioc_analysis` list. -/
def report_threat_level (l : List IOCAnalysis) : String :=
  threat_level_from_score (report_threat_score l)

/-!
### ThreatFox search and the `hunt_threats` per-IOC loop
-/

/-- A ThreatFox API response as used by `hunt_threats`: the
`query_status` string and the `data` list (entries left opaque). -/
structure ThreatFoxResponse where
  query_status : String
  data : List String
  deriving Repr, DecidableEq

/-- Embedding of `ThreatFoxClient.search_ioc` when `config.offline_mode`
holds: the function returns `{"query_status": "offline_mode", "data": []}`
before any network interaction. -/
def search_ioc_offline (_ioc_value : List Char) : ThreatFoxResponse :=
  { query_status := "offline_mode", data := [] }

/-- The branch of the `hunt_threats` loop that turns one `search_ioc`
response into an `ioc_analysis` entry. -/
def classify_ioc_result (ioc : List Char) (r : ThreatFoxResponse) : IOCAnalysis :=
  if r.query_status = "ok" ∧ r.data ≠ [] then
    { ioc := ioc, matchCount := r.data.length, status := none }
  else if r.query_status = "no_result" then
    { ioc := ioc, matchCount := 0, status := some "clean_or_unknown" }
  else if r.query_status = "offline_mode" then
    { ioc := ioc, matchCount := 0, status := some "offline_mode" }
  else
    { ioc := ioc, matchCount := 0, status := some "error" }

/-- The IOC slice analysed by `hunt_threats`: `iocs[:10]`. -/
def iocs_to_analyze (all_iocs : List (List Char)) : List (List Char) :=
  all_iocs.take 10

/-- The `ioc_analysis` list built by the `hunt_threats` loop in offline
mode, as a function of the combined provided+extracted IOC list. -/
def hunt_threats_offline (all_iocs : List (List Char)) : List IOCAnalysis :=
  (iocs_to_analyze all_iocs).map (fun ioc => classify_ioc_result ioc (search_ioc_offline ioc))

/-!
### Recommendations
-/

/-- The "Critical" action list of `_generate_recommendations`. -/
def critical_actions : List String :=
  ["Immediately isolate affected systems",
   "Block IOC at network perimeter (firewall/proxy)",
   "Initiate incident response procedures",
   "Scan for lateral movement indicators"]

/-- The "High" action list of `_generate_recommendations`. -/
def high_actions : List String :=
  ["Block IOC in security controls",
   "Monitor for related activity",
   "Review system logs for exposure",
   "Consider quarantining suspicious files"]

/-- The "Medium" action list of `_generate_recommendations`. -/
def medium_actions : List String :=
  ["Add IOC to watchlists for monitoring",
   "Review associated network activity",
   "Update security signatures",
   "Schedule deeper investigation"]

/-- The "Low" action list of `_generate_recommendations`. -/
def low_actions : List String :=
  ["Monitor IOC activity",
   "Document for future reference",
   "Consider adding to low-priority watchlist"]

/-- The "Clean" action list of `_generate_recommendations`. -/
def clean_actions : List String :=
  ["No immediate action required",
   "Continue routine monitoring",
   "Remove from active investigation if applicable"]

/-- The "Unknown" action list of `_generate_recommendations`. -/
def unknown_actions : List String :=
  ["Gather additional intelligence",
   "Submit for further analysis if suspicious",
   "Monitor for future activity"]

/-- The `recommendations` dict of `_generate_recommendations`. -/
def recommendations_table : List (String × List String) :=
  [("Critical", critical_actions), ("High", high_actions),
   ("Medium", medium_actions), ("Low", low_actions),
   ("Clean", clean_actions), ("Unknown", unknown_actions)]

/-- Embedding of `_generate_recommendations` (virustotal_analyzer.py):
`recommendations.get(threat_level, recommendations["Unknown"])` (the source
then joins the chosen list with `- ` bullets; the claims are about the
chosen action list). -/
def _generate_recommendations (threat_level : String) : List String :=
  (recommendations_table.lookup threat_level).getD unknown_actions

/-!
## Claims
-/

/-- C2: `_assess_threat_level` maps the detection percentage
`malicious / total * 100` to: ≥ 70 Critical, 30–69 High, 10–29 Medium,
0 < x < 10 Low, = 0 Clean, and returns Unknown whenever `total_engines`
is 0 regardless of `malicious`; in particular `score 0 70 = Clean` and
`score 50 70 = Critical`. -/
theorem C2_assess_threat_level_bands (m t : Nat) :
    (t = 0 → _assess_threat_level m t = "Unknown") ∧
    (t ≠ 0 →
      ((70 ≤ detection_percentage m t → _assess_threat_level m t = "Critical") ∧
       (30 ≤ detection_percentage m t ∧ detection_percentage m t < 70 →
         _assess_threat_level m t = "High") ∧
       (10 ≤ detection_percentage m t ∧ detection_percentage m t < 30 →
         _assess_threat_level m t = "Medium") ∧
       (0 < detection_percentage m t ∧ detection_percentage m t < 10 →
         _assess_threat_level m t = "Low") ∧
       (detection_percentage m t = 0 → _assess_threat_level m t = "Clean"))) ∧
    _assess_threat_level 0 70 = "Clean" ∧
    _assess_threat_level 50 70 = "Critical" := by
  refine ⟨fun h => by simp [_assess_threat_level, h], fun ht => ⟨?_, ?_, ?_, ?_, ?_⟩, ?_, ?_⟩
  · intro h
    unfold _assess_threat_level
    split_ifs <;> first | rfl | (exfalso; first | exact ht (by assumption) | linarith)
  · rintro ⟨h1, h2⟩
    unfold _assess_threat_level
    split_ifs <;> first | rfl | (exfalso; first | exact ht (by assumption) | linarith)
  · rintro ⟨h1, h2⟩
    unfold _assess_threat_level
    split_ifs <;> first | rfl | (exfalso; first | exact ht (by assumption) | linarith)
  · rintro ⟨h1, h2⟩
    unfold _assess_threat_level
    split_ifs <;> first | rfl | (exfalso; first | exact ht (by assumption) | linarith)
  · intro h
    unfold _assess_threat_level
    split_ifs <;> first | rfl | (exfalso; first | exact ht (by assumption) | linarith)
  · norm_num [_assess_threat_level, detection_percentage]
  · norm_num [_assess_threat_level, detection_percentage]

/-- Witness for C2 at `malicious = 50, total = 70` (≈ 71.4% → Critical). -/
theorem C2_witness : _assess_threat_level 50 70 = "Critical" :=
  ((C2_assess_threat_level_bands 50 70).2.1 (by norm_num)).1
    (by norm_num [detection_percentage])

/-- C3: the aggregate scoring of `_generate_offline_hunting_report` computes
the fraction of analysed IOCs with a positive match count (0 for the empty
list) and maps it to ≥ 75% CRITICAL, ≥ 50% HIGH, ≥ 25% MEDIUM, else LOW;
in particular the empty analysis list yields LOW. -/
theorem C3_aggregate_bands (l : List IOCAnalysis) :
    report_threat_level ([] : List IOCAnalysis) = "LOW" ∧
    (l.length = 0 → report_threat_level l = "LOW") ∧
    (l.length ≠ 0 →
      ((75 ≤ 100 * ((report_malicious_iocs l : ℚ) / (l.length : ℚ)) →
         report_threat_level l = "CRITICAL") ∧
       (50 ≤ 100 * ((report_malicious_iocs l : ℚ) / (l.length : ℚ)) ∧
          100 * ((report_malicious_iocs l : ℚ) / (l.length : ℚ)) < 75 →
         report_threat_level l = "HIGH") ∧
       (25 ≤ 100 * ((report_malicious_iocs l : ℚ) / (l.length : ℚ)) ∧
          100 * ((report_malicious_iocs l : ℚ) / (l.length : ℚ)) < 50 →
         report_threat_level l = "MEDIUM") ∧
       (100 * ((report_malicious_iocs l : ℚ) / (l.length : ℚ)) < 25 →
         report_threat_level l = "LOW"))) := by
  refine ⟨by norm_num [report_threat_level, report_threat_score, threat_score,
      threat_level_from_score, report_malicious_iocs], fun h => ?_, fun ht => ?_⟩
  · simp only [report_threat_level, report_threat_score, threat_score, h]
    norm_num [threat_level_from_score]
  · have hpos : 0 < l.length := Nat.pos_of_ne_zero ht
    refine ⟨fun h => ?_, fun h => ?_, fun h => ?_, fun h => ?_⟩ <;>
      (unfold report_threat_level report_threat_score threat_score threat_level_from_score
       rw [if_pos hpos]
       split_ifs <;> first | rfl | (exfalso; obtain ⟨h1, h2⟩ := h; linarith) | (exfalso; linarith))

/-- Witness for C3 at a one-element list with a positive match count
(fraction 1 → CRITICAL). -/
theorem C3_witness :
    report_threat_level [⟨"bad".toList, 3, none⟩] = "CRITICAL" :=
  ((C3_aggregate_bands [⟨"bad".toList, 3, none⟩]).2.2 (by decide)).1
    (by norm_num [report_malicious_iocs, List.countP, List.countP.go])

/-- Helper: the offline `search_ioc` response turns into a zero-match
`offline_mode` analysis entry. -/
theorem classify_offline (ioc : List Char) :
    classify_ioc_result ioc (search_ioc_offline ioc) =
      { ioc := ioc, matchCount := 0, status := some "offline_mode" } := by
  rfl

/-- Helper: a zero `malicious_iocs` count always scores 0. -/
theorem threat_score_zero (t : Nat) : threat_score 0 t = 0 := by
  unfold threat_score
  split <;> simp

/-- C10: with `offline_mode` enabled every `search_ioc` call returns
query status `offline_mode` with an empty data list, so the `hunt_threats`
report has zero malicious IOCs, a threat score of 0%, and threat level LOW,
whatever the incident text and IOC list produced as `all_iocs`. -/
theorem C10_offline_hunt_is_low (all_iocs : List (List Char)) :
    (∀ ioc, (search_ioc_offline ioc).query_status = "offline_mode" ∧
       (search_ioc_offline ioc).data = []) ∧
    report_malicious_iocs (hunt_threats_offline all_iocs) = 0 ∧
    report_threat_score (hunt_threats_offline all_iocs) = 0 ∧
    report_threat_level (hunt_threats_offline all_iocs) = "LOW" := by
  have hzero : report_malicious_iocs (hunt_threats_offline all_iocs) = 0 := by
    refine List.countP_eq_zero.mpr ?_
    intro a ha
    simp only [hunt_threats_offline, List.mem_map] at ha
    obtain ⟨i, _, rfl⟩ := ha
    rw [classify_offline]
    simp
  refine ⟨fun _ => ⟨rfl, rfl⟩, hzero, ?_, ?_⟩
  · rw [report_threat_score, hzero, threat_score_zero]
  · rw [report_threat_level, report_threat_score, hzero, threat_score_zero]
    norm_num [threat_level_from_score]

/-- C1 (amended): the extraction helper itself is uncapped; the cap is the
`iocs[:10]` slice in `hunt_threats`, so at most 10 IOCs are analysed per
hunt. -/
theorem C1_hunt_analyzes_at_most_ten (all_iocs : List (List Char)) :
    (iocs_to_analyze all_iocs).length ≤ 10 ∧
    (hunt_threats_offline all_iocs).length ≤ 10 := by
  refine ⟨?_, ?_⟩ <;>
    simp only [iocs_to_analyze, hunt_threats_offline, List.length_map, List.length_take] <;>
    omega

/-- A text whose eleven distinct IPv4 addresses all match the IP pattern. -/
def elevenIPText : String :=
  "1.1.1.1 2.2.2.2 3.3.3.3 4.4.4.4 5.5.5.5 6.6.6.6 7.7.7.7 8.8.8.8 9.9.9.9 10.10.10.10 11.11.11.11"

/-- C1 counterexample: `_extract_iocs_from_text` has no `max_results`
parameter and can return more than the configured cap of 10 — here 11
indicators — so "extraction never exceeds max_results" fails for the
extraction function itself. -/
theorem C1_counterexample :
    (extract_iocs_str elevenIPText).length = 11 ∧
    ¬((extract_iocs_str elevenIPText).length ≤ 10) := by
  constructor <;> decide

/-- Helper: `_generate_recommendations` always returns one of the six fixed
action lists of the table. -/
theorem recommendations_cases (lvl : String) :
    _generate_recommendations lvl = critical_actions ∨
    _generate_recommendations lvl = high_actions ∨
    _generate_recommendations lvl = medium_actions ∨
    _generate_recommendations lvl = low_actions ∨
    _generate_recommendations lvl = clean_actions ∨
    _generate_recommendations lvl = unknown_actions := by
  unfold _generate_recommendations recommendations_table
  simp only [List.lookup]
  repeat' split
  all_goals simp

/-- C8: `_generate_recommendations` returns a fixed non-empty list of 3–5
actions for every input (one list per threat level, including Unknown), an
unrecognised threat level falls back to the Unknown list, and the Critical
list begins with the isolation action "Immediately isolate affected
systems". -/
theorem C8_recommendations :
    (∀ lvl : String, _generate_recommendations lvl ≠ [] ∧
       3 ≤ (_generate_recommendations lvl).length ∧
       (_generate_recommendations lvl).length ≤ 5) ∧
    (∀ lvl : String, recommendations_table.lookup lvl = none →
       _generate_recommendations lvl = _generate_recommendations "Unknown") ∧
    (_generate_recommendations "Critical").head? =
      some "Immediately isolate affected systems" ∧
    "isolate".toList <:+: ((_generate_recommendations "Critical").headD "").toList := by
  refine ⟨fun lvl => ?_, fun lvl h => ?_, by decide, by decide⟩
  · rcases recommendations_cases lvl with h | h | h | h | h | h <;> rw [h] <;> decide
  · simp only [_generate_recommendations, h, Option.getD_none]
    decide

/-- Helper: splitting on a separator that does not occur yields the whole
string as the single part. -/
theorem splitOnChar_no_sep (sep : Char) (l : List Char)
    (h : ∀ c ∈ l, c ≠ sep) : splitOnChar sep l = [l] := by
  induction l with
  | nil => rfl
  | cons c rest ih =>
    have hc : c ≠ sep := h c (List.mem_cons_self c rest)
    have hrest := ih (fun d hd => h d (List.mem_cons_of_mem c hd))
    simp [splitOnChar, hrest, hc]

/-- Helper: `dropWhile` keeps a list none of whose characters satisfy the
predicate. -/
theorem dropWhile_eq_self_of_none (m : List Char) (p : Char → Bool)
    (hm : ∀ c ∈ m, p c = false) : m.dropWhile p = m := by
  cases m with
  | nil => rfl
  | cons c r => simp [List.dropWhile_cons, hm c (List.mem_cons_self c r)]

/-- Helper: stripping a string with no whitespace characters is the
identity. -/
theorem pyStrip_eq_self (l : List Char) (h : ∀ c ∈ l, isPySpace c = false) :
    pyStrip l = l := by
  rw [pyStrip, dropWhile_eq_self_of_none l _ h,
    dropWhile_eq_self_of_none l.reverse _ (fun c hc => h c (List.mem_reverse.mp hc)),
    List.reverse_reverse]

/-- Helper: a hexadecimal character is not a colon. -/
theorem hexChar_ne_colon {c : Char} (h : isHexChar c = true) : c ≠ ':' := by
  rintro rfl
  exact absurd h (by decide)

/-- Helper: a hexadecimal character is not a dot. -/
theorem hexChar_ne_dot {c : Char} (h : isHexChar c = true) : c ≠ '.' := by
  rintro rfl
  exact absurd h (by decide)

/-- Helper: a hexadecimal character is not the letter `h`. -/
theorem hexChar_ne_h {c : Char} (h : isHexChar c = true) : c ≠ 'h' := by
  rintro rfl
  exact absurd h (by decide)

/-- Helper: a hexadecimal character is not whitespace. -/
theorem hexChar_not_space {c : Char} (h : isHexChar c = true) : isPySpace c = false := by
  by_contra hsp
  rw [Bool.not_eq_false] at hsp
  simp only [isPySpace, Bool.or_eq_true, decide_eq_true_eq] at hsp
  rcases hsp with ((((rfl | rfl) | rfl) | rfl) | rfl) | rfl <;> exact absurd h (by decide)

/-- Helper: on an all-hex string, the ThreatFox detector falls through to
its trailing length checks. -/
theorem tf_detect_hex (s : List Char) (hhex : s.all isHexChar = true) (hne : s ≠ []) :
    threatfox_detect_ioc_type s =
      (if s.length = 64 then "sha256" else if s.length = 32 then "md5"
       else if s.length = 40 then "sha1" else "unknown") := by
  obtain ⟨a, t, rfl⟩ : ∃ a t, s = a :: t := by
    cases s with
    | nil => exact absurd rfl hne
    | cons a t => exact ⟨a, t, rfl⟩
  have hall := List.all_eq_true.mp hhex
  have hhead : isHexChar a = true := hall a (List.mem_cons_self a t)
  have htake : (a :: t).takeWhile (fun c => c ≠ ':') = a :: t :=
    List.takeWhile_eq_self_iff.mpr (fun c hc => by simpa using hexChar_ne_colon (hall c hc))
  have hdot : ∀ c ∈ a :: t, c ≠ '.' := fun c hc => hexChar_ne_dot (hall c hc)
  have hipv4 : isPyIPv4 (a :: t) = false := by
    simp [isPyIPv4, splitOnChar_no_sep '.' (a :: t) hdot]
  have hsw1 : startsWithL "http://" (a :: t) = false := by
    apply decide_eq_false
    intro hpre
    rw [show "http://".toList = 'h' :: "ttp://".toList from rfl,
      List.cons_prefix_cons] at hpre
    exact hexChar_ne_h hhead hpre.1.symm
  have hsw2 : startsWithL "https://" (a :: t) = false := by
    apply decide_eq_false
    intro hpre
    rw [show "https://".toList = 'h' :: "ttps://".toList from rfl,
      List.cons_prefix_cons] at hpre
    exact hexChar_ne_h hhead hpre.1.symm
  have hcont : (a :: t).contains '.' = false :=
    Bool.eq_false_iff.mpr (fun hc => hdot '.' (List.elem_iff.mp hc) rfl)
  unfold threatfox_detect_ioc_type
  rw [htake, hipv4, hsw1, hsw2, hcont]
  simp

/-- Helper: an all-hex string of length 32, 40 or 64 is classified "hash"
by the VirusTotal detector. -/
theorem vt_detect_hex (s : List Char) (hhex : s.all isHexChar = true)
    (hlen : s.length = 32 ∨ s.length = 40 ∨ s.length = 64) :
    virustotal_detect_ioc_type s = "hash" := by
  have hall := List.all_eq_true.mp hhex
  have hstrip : pyStrip s = s :=
    pyStrip_eq_self s (fun c hc => hexChar_not_space (hall c hc))
  unfold virustotal_detect_ioc_type
  rw [hstrip]
  rcases hlen with h | h | h <;> rw [h] <;> simp [hhex]

/-- C4 (amended): neither detector follows the claimed rule order.  The
ThreatFox detector checks IP first (on the part before the first colon),
then `http://`/`https://` (not `ftp://`), then dotted non-`http`/`ftp`
strings as domains, and only then bare length 32/40/64 (hex not required);
the VirusTotal detector checks all-hex length 32/40/64 first but returns
"hash" (not md5/sha1/sha256), then `http://`/`https://`/`ftp://`, then a
strict IPv4 regex, else "domain".  Still, every all-hex string of length
32/40/64 is classified md5/sha1/sha256 respectively by the ThreatFox
detector and "hash" by the VirusTotal one. -/
theorem C4_detect_type_hex_strings (s : List Char) (hhex : s.all isHexChar = true) :
    (s.length = 32 →
      threatfox_detect_ioc_type s = "md5" ∧ virustotal_detect_ioc_type s = "hash") ∧
    (s.length = 40 →
      threatfox_detect_ioc_type s = "sha1" ∧ virustotal_detect_ioc_type s = "hash") ∧
    (s.length = 64 →
      threatfox_detect_ioc_type s = "sha256" ∧ virustotal_detect_ioc_type s = "hash") := by
  have hne : ∀ n : Nat, s.length = n → n ≠ 0 → s ≠ [] := by
    intro n hn hn0 hnil
    rw [hnil] at hn
    exact hn0 hn.symm
  refine ⟨fun h => ⟨?_, vt_detect_hex s hhex (Or.inl h)⟩,
          fun h => ⟨?_, vt_detect_hex s hhex (Or.inr (Or.inl h))⟩,
          fun h => ⟨?_, vt_detect_hex s hhex (Or.inr (Or.inr h))⟩⟩ <;>
    rw [tf_detect_hex s hhex (hne _ h (by norm_num)), h] <;> norm_num

/-- C4 counterexample: the claim's rule (2) says an `ftp://` prefix maps to
"url", but the ThreatFox detector has no `ftp://` URL case and classifies
this value "unknown". -/
theorem C4_counterexample :
    threatfox_detect_ioc_type "ftp://evil.com/payload".toList = "unknown" ∧
    threatfox_detect_ioc_type "ftp://evil.com/payload".toList ≠ "url" := by
  constructor <;> decide

/-- Witness for C4 at the 32-character hex string from the spec scenario. -/
theorem C4_witness :
    threatfox_detect_ioc_type "5f4dcc3b5aa765d61d8327deb882cf99".toList = "md5" ∧
    virustotal_detect_ioc_type "5f4dcc3b5aa765d61d8327deb882cf99".toList = "hash" :=
  (C4_detect_type_hex_strings "5f4dcc3b5aa765d61d8327deb882cf99".toList (by decide)).1
    (by decide)

/-- C9: whenever the stripped value fails the hash, URL-prefix and strict
IPv4 checks, the VirusTotal detector returns "domain"; it never returns
"unknown" — not even on the empty string or a dot-free token. -/
theorem C9_vt_detect_domain_default :
    (∀ s : List Char,
      (((pyStrip s).length = 32 || (pyStrip s).length = 40
          || (pyStrip s).length = 64) && (pyStrip s).all isHexChar) = false →
      (startsWithL "http://" (pyStrip s) || startsWithL "https://" (pyStrip s)
          || startsWithL "ftp://" (pyStrip s)) = false →
      vtIPMatch (pyStrip s) = false →
      virustotal_detect_ioc_type s = "domain") ∧
    virustotal_detect_ioc_type "".toList = "domain" ∧
    virustotal_detect_ioc_type "not-an-ioc".toList = "domain" ∧
    (∀ s : List Char, virustotal_detect_ioc_type s ≠ "unknown") := by
  refine ⟨fun s h1 h2 h3 => ?_, by decide, by decide, fun s => ?_⟩
  · unfold virustotal_detect_ioc_type
    rw [h1, h2, h3]
    simp
  · unfold virustotal_detect_ioc_type
    split_ifs <;> decide

/-- Witness for C9 at the dot-free token "not-an-ioc". -/
theorem C9_witness : virustotal_detect_ioc_type "not-an-ioc".toList = "domain" :=
  C9_vt_detect_domain_default.1 "not-an-ioc".toList (by decide) (by decide) (by decide)

/-- First-occurrence deduplication, the specification-level description of
the clean/dedup loop: keep each value's first occurrence, drop later ones. -/
def dedupFirst {α : Type} [DecidableEq α] : List α → List α
  | [] => []
  | x :: xs => x :: dedupFirst (xs.filter (fun y => y ≠ x))
termination_by l => l.length
decreasing_by simp only [List.length_cons]; exact Nat.lt_succ_of_le (List.length_filter_le _ _)

/-- Helper: `dedupFirst` returns a sublist (order-preserving selection). -/
theorem dedupFirst_sublist {α : Type} [DecidableEq α] (l : List α) :
    List.Sublist (dedupFirst l) l := by
  induction l using dedupFirst.induct with
  | case1 => simp [dedupFirst]
  | case2 x xs ih =>
    rw [dedupFirst]
    exact List.Sublist.cons₂ x (ih.trans (List.filter_sublist xs))

/-- Helper: `dedupFirst` keeps exactly the values of its input. -/
theorem mem_dedupFirst {α : Type} [DecidableEq α] (l : List α) :
    ∀ x, x ∈ dedupFirst l ↔ x ∈ l := by
  induction l using dedupFirst.induct with
  | case1 => simp [dedupFirst]
  | case2 y xs ih =>
    intro x
    rw [dedupFirst]
    constructor
    · intro h
      rcases List.mem_cons.mp h with rfl | h2
      · exact List.mem_cons_self _ _
      · exact List.mem_cons_of_mem _ (List.mem_filter.mp ((ih x).mp h2)).1
    · intro h
      rcases List.mem_cons.mp h with rfl | h2
      · exact List.mem_cons_self _ _
      · by_cases hxy : x = y
        · subst hxy; exact List.mem_cons_self _ _
        · exact List.mem_cons_of_mem _ ((ih x).mpr (List.mem_filter.mpr ⟨h2, by simp [hxy]⟩))

/-- Helper: `dedupFirst` never returns duplicates. -/
theorem dedupFirst_nodup {α : Type} [DecidableEq α] (l : List α) :
    (dedupFirst l).Nodup := by
  induction l using dedupFirst.induct with
  | case1 => simp [dedupFirst]
  | case2 y xs ih =>
    rw [dedupFirst]
    refine List.nodup_cons.mpr ⟨fun hmem => ?_, ih⟩
    have := (List.mem_filter.mp ((mem_dedupFirst _ y).mp hmem)).2
    simp at this

/-- Helper: the clean/dedup loop is first-occurrence deduplication of the
stripped, non-empty raw matches (after skipping values already in the
accumulator). -/
theorem cleanDedup_eq (l : List (List Char)) : ∀ acc : List (List Char),
    cleanDedup acc l =
      acc ++ dedupFirst
        (((l.map pyStrip).filter (fun y => y ≠ [])).filter (fun y => y ∉ acc)) := by
  induction l with
  | nil => intro acc; simp [cleanDedup, dedupFirst]
  | cons x xs ih =>
    intro acc
    rw [show cleanDedup acc (x :: xs) =
          if pyStrip x ≠ [] ∧ pyStrip x ∉ acc then cleanDedup (acc ++ [pyStrip x]) xs
          else cleanDedup acc xs from rfl]
    rw [List.map_cons]
    by_cases h1 : pyStrip x = []
    · rw [if_neg (fun hc => hc.1 h1), List.filter_cons_of_neg (by simp [h1]), ih acc]
    · by_cases h2 : pyStrip x ∈ acc
      · rw [if_neg (fun hc => hc.2 h2), List.filter_cons_of_pos (by simp [h1]),
          List.filter_cons_of_neg (by simp [h2]), ih acc]
      · have hfilters :
            ((xs.map pyStrip).filter (fun y => y ≠ [])).filter
                (fun y => y ∉ acc ++ [pyStrip x]) =
              (((xs.map pyStrip).filter (fun y => y ≠ [])).filter
                (fun y => y ∉ acc)).filter (fun y => y ≠ pyStrip x) := by
          rw [List.filter_filter, List.filter_filter, List.filter_filter]
          apply List.filter_congr
          intro a _
          by_cases ha : a ∈ acc <;> by_cases hx : a = pyStrip x <;> simp [ha, hx]
        rw [if_pos ⟨h1, h2⟩, List.filter_cons_of_pos (by simp [h1]),
          List.filter_cons_of_pos (by simp [h2]), ih (acc ++ [pyStrip x]), hfilters]
        rw [show dedupFirst (pyStrip x ::
              (((xs.map pyStrip).filter (fun y => y ≠ [])).filter (fun y => y ∉ acc))) =
            pyStrip x :: dedupFirst
              ((((xs.map pyStrip).filter (fun y => y ≠ [])).filter (fun y => y ∉ acc)).filter
                (fun y => y ≠ pyStrip x)) from by rw [dedupFirst]]
        simp

/-- C7 (amended): extraction output has no duplicate values (hence no
duplicate (value, kind) pairs), and preserves first-occurrence order of the
matcher passes — it equals first-occurrence deduplication of the stripped
raw matches and is an order-preserving selection from them.  The length cap
of 10 is not applied here but by the `iocs[:10]` slice in `hunt_threats`. -/
theorem C7_extraction_unique_ordered (text : List Char) :
    _extract_iocs_from_text text
      = dedupFirst (((rawIOCs text).map pyStrip).filter (fun y => y ≠ [])) ∧
    (_extract_iocs_from_text text).Nodup ∧
    List.Sublist (_extract_iocs_from_text text) ((rawIOCs text).map pyStrip) := by
  have heq : _extract_iocs_from_text text
      = dedupFirst (((rawIOCs text).map pyStrip).filter (fun y => y ≠ [])) := by
    rw [_extract_iocs_from_text, cleanDedup_eq]
    rw [show (((rawIOCs text).map pyStrip).filter (fun y => y ≠ [])).filter
          (fun y => y ∉ ([] : List (List Char)))
        = ((rawIOCs text).map pyStrip).filter (fun y => y ≠ []) from
      List.filter_eq_self.mpr (fun a _ => by simp)]
    simp
  refine ⟨heq, ?_, ?_⟩
  · rw [heq]
    exact dedupFirst_nodup _
  · rw [heq]
    exact (dedupFirst_sublist _).trans (List.filter_sublist _)

/-- A text whose twelve distinct IPv4 addresses all match the IP pattern. -/
def twelveIPText : String :=
  "1.1.1.1 2.2.2.2 3.3.3.3 4.4.4.4 5.5.5.5 6.6.6.6 7.7.7.7 8.8.8.8 9.9.9.9 10.10.10.10 11.11.11.11 12.12.12.12"

/-- C7 counterexample: the extraction result itself is not capped at the
configured limit of 10 — twelve matches yield twelve indicators. -/
theorem C7_counterexample :
    (extract_iocs_str twelveIPText).length = 12 ∧
    ¬((extract_iocs_str twelveIPText).length ≤ 10) := by
  constructor <;> decide

/-- C5 (amended): a matched domain is kept by the extraction filter iff its
suffix is outside the allow-list `.com`/`.org`/`.net` (the source has no
`.local`/`.internal` entries) or one of "malicious"/"suspicious"/"bad"
occurs in the lower-cased matched domain text. -/
theorem C5_domain_filter (d : List Char) :
    domainFilterKeep d = true ↔
      (¬(".com".toList <:+ d ∨ ".org".toList <:+ d ∨ ".net".toList <:+ d) ∨
       ("malicious".toList <:+: d.map Char.toLower ∨
        "suspicious".toList <:+: d.map Char.toLower ∨
        "bad".toList <:+: d.map Char.toLower)) := by
  simp [domainFilterKeep, not_or, or_assoc, and_assoc]

/-- C5 counterexample: `printer.local` has the claimed allow-listed TLD
`.local` and no suspicious keyword, so the claim says it is discarded — but
the source allow-list is only `.com`/`.org`/`.net`, so it is returned. -/
theorem C5_counterexample :
    extract_iocs_str "host printer.local offline" = ["printer.local"] := by
  decide

/-- The spec's extraction scenario text. -/
def c6Text : String :=
  "Contact admin, suspicious-c2.com connected to 203.0.113.5, hash 5f4dcc3b5aa765d61d8327deb882cf99"

/-- C6 counterexample: the claimed relative order (domain before ip) does
not hold — the IP matcher pass runs before the domain pass. -/
theorem C6_counterexample :
    extract_iocs_str c6Text ≠
      ["suspicious-c2.com", "203.0.113.5", "5f4dcc3b5aa765d61d8327deb882cf99"] := by
  decide

/-- C6 (amended): the scenario text yields exactly the three indicators
`203.0.113.5`, `suspicious-c2.com`, `5f4dcc3b5aa765d61d8327deb882cf99`, in
that order (IP pass first, then filtered domains, then hashes). -/
theorem C6_scenario_extraction :
    extract_iocs_str c6Text =
      ["203.0.113.5", "suspicious-c2.com", "5f4dcc3b5aa765d61d8327deb882cf99"] := by
  decide

/-- Witness for C8 at an unrecognised threat level. -/
theorem C8_witness :
    _generate_recommendations "Bogus" = _generate_recommendations "Unknown" ∧
    3 ≤ (_generate_recommendations "Bogus").length :=
  ⟨C8_recommendations.2.1 "Bogus" (by decide), (C8_recommendations.1 "Bogus").2.1⟩
